import Mathlib

/-!
Shallow embedding of the trade-lifecycle manager (trade_manager.py,
alpaca_client.py, supabase_client.py).

Python values are modelled as follows: nullable fields become `Option`,
prices become `ℚ` (comparisons of floats translate to rational
comparisons; no rounding arithmetic occurs in the embedded code),
Python truthiness is made explicit (`""`, `None`, `0.0` are falsy),
and the broker REST answers become an `HttpOutcome`.  The dispatcher's
observable behaviour (database writes, deletes, broker POSTs, ledger
writes) is modelled as a list of effects produced by one per-row pass
of `run_trade_manager`'s loop body, together with an optional uncaught
exception (the loop body has no surrounding try/except in the source).
-/

namespace TradeManager

/-- Python `str.lower()` (written through the character list so the
kernel can evaluate it). -/
def pyLower (s : String) : String := ⟨s.data.map Char.toLower⟩

/-- Python slicing `s[:n]` (by characters). -/
def pyTake (s : String) (n : Nat) : String := ⟨s.data.take n⟩

/-- Python slicing `s[n:]` (by characters). -/
def pyDrop (s : String) (n : Nat) : String := ⟨s.data.drop n⟩

/-- Python `s.startswith(p)`. -/
def pyStartsWith (s p : String) : Bool := p.data.isPrefixOf s.data

/-- Python `x or ""` for an optional string. -/
def orEmpty (s : Option String) : String := s.getD ""

/-- Python truthiness of an optional string (`None` and `""` are falsy). -/
def optStrTruthy (s : Option String) : Bool :=
  match s with
  | some v => v ≠ ""
  | none => false

/-- Python `(x or d)` for an optional string with default `d`
(used as `(row.get("entry_type") or "equity")`). -/
def pyOrStrD (s : Option String) (d : String) : String :=
  match s with
  | some v => if v = "" then d else v
  | none => d

/-- Python truthiness of an optional float (`None` and `0.0` are falsy). -/
def qTruthy (x : Option ℚ) : Bool :=
  match x with
  | some v => v ≠ 0
  | none => false

/-- Python `a or b` on optional floats: returns `a` when `a` is truthy,
otherwise returns `b` unchanged. -/
def pyOrQ (a b : Option ℚ) : Option ℚ :=
  if qTruthy a then a else b

/-- One row of the read-only `spot` table: `last_price` plus the
`tf_closes` mapping from timeframe label to an optional candle close. -/
structure SpotRow where
  lastPrice : Option ℚ
  tfCloses : List (String × Option ℚ)
deriving DecidableEq, Repr

/-- One `active_trades` row, with the fields the manager reads.
`entryTime`/`endTime` are carried to state claims about time windows. -/
structure ActiveTrade where
  id : String
  symbol : Option String
  occ : Option String
  assetType : Option String
  cp : Option String
  side : Option String
  qty : Int
  manage : Option String
  status : Option String
  entryCond : Option String
  entryType : Option String
  entryTf : Option String
  entryLevel : Option ℚ
  entryTime : Option Int
  endTime : Option Int
  slEnabled : Option Bool
  slCond : Option String
  slType : Option String
  slTf : Option String
  slLevel : Option ℚ
  sl : Option ℚ
  tpEnabled : Option Bool
  tpLevel : Option ℚ
  tp : Option ℚ
  tpType : Option String
  orderId : Option String
  orderStatus : Option String
  comment : Option String
  tradeType : Option String
deriving DecidableEq, Repr

/-- `_get_spot_price` (module level): the `last_price` of a spot row. -/
def getSpotPrice (r : Option SpotRow) : Option ℚ :=
  r.bind SpotRow.lastPrice

/-- `_get_tf_close`: the close of the `tf` bucket of `tf_closes`.
Returns `None` when the row is missing, the timeframe label is falsy,
the bucket is missing, or the bucket has no close. -/
def getTfClose (r : Option SpotRow) (tf : Option String) : Option ℚ :=
  match r, tf with
  | some row, some t =>
      if t = "" then none
      else (row.tfCloses.lookup t).join
  | _, _ => none

/-- `_choose_spot_row`: pick the instrument's spot row from the already
lowered `*_type` field; anything other than "option" falls back to the
underlying. -/
def chooseSpotRow (t : String) (spotU spotO : Option SpotRow) : Option SpotRow :=
  if t = "equity" then spotU
  else if t = "option" then spotO
  else spotU

/-- Shared direction logic of `check_entry`/`check_sl`/`check_tp`
(the same lines are duplicated verbatim in the three source functions):
options use `cp`, otherwise `side` decides, defaulting to long. -/
def profitWhenUpOf (assetType cp side : String) : Bool :=
  if assetType = "option" then
    if cp = "c" ∨ cp = "call" then true
    else if cp = "p" ∨ cp = "put" then false
    else side ≠ "short"
  else side ≠ "short"

/-- `check_entry(row, spot_under, spot_option)`: returns
`(should_enter, entry_price_used)`. -/
def checkEntry (row : ActiveTrade) (spotU spotO : Option SpotRow) :
    Bool × Option ℚ :=
  let cond := pyLower (orEmpty row.entryCond)
  if cond = "" then (false, none) else
  let entryType := pyLower (pyOrStrD row.entryType "equity")
  let entryTf := row.entryTf
  let level := row.entryLevel
  let assetType := pyLower (orEmpty row.assetType)
  let cp := pyLower (orEmpty row.cp)
  let side := pyLower (orEmpty row.side)
  if cond ≠ "now" ∧ level = none then (false, none) else
  match chooseSpotRow entryType spotU spotO with
  | none => (false, none)
  | some sr =>
    if cond = "at" ∨ cond = "now" then
      match sr.lastPrice with
      | none => (false, none)
      | some price =>
        if cond = "now" then (true, some price)
        else
          match level with
          | none => (false, none)
          | some l =>
            if profitWhenUpOf assetType cp side then
              (decide (price ≤ l), some price)
            else
              (decide (l ≤ price), some price)
    else if cond = "ca" ∨ cond = "cb" then
      if optStrTruthy entryTf = false then (false, none)
      else
        match getTfClose (some sr) entryTf with
        | none => (false, none)
        | some price =>
          match level with
          | none => (false, none)
          | some l =>
            if cond = "ca" then (decide (l < price), some price)
            else (decide (price < l), some price)
    else (false, none)

/-- `check_sl(row, spot_under, spot_option)`: returns `(sl_hit, price_used)`.
The level is `row.get("sl_level") or row.get("sl")` — Python `or`, so a
level equal to `0.0` falls through to the fallback key. -/
def checkSl (row : ActiveTrade) (spotU spotO : Option SpotRow) :
    Bool × Option ℚ :=
  if row.slEnabled = some false then (false, none) else
  let cond := pyLower (orEmpty row.slCond)
  if cond = "" then (false, none) else
  let slType := pyLower (pyOrStrD row.slType "equity")
  let slTf := row.slTf
  let level := pyOrQ row.slLevel row.sl
  let assetType := pyLower (orEmpty row.assetType)
  let cp := pyLower (orEmpty row.cp)
  let side := pyLower (orEmpty row.side)
  if cond ≠ "now" ∧ level = none then (false, none) else
  match chooseSpotRow slType spotU spotO with
  | none => (false, none)
  | some sr =>
    if cond = "at" ∨ cond = "now" then
      match sr.lastPrice with
      | none => (false, none)
      | some price =>
        if cond = "now" then (true, some price)
        else
          match level with
          | none => (false, none)
          | some l =>
            if profitWhenUpOf assetType cp side then
              (decide (price ≤ l), some price)
            else
              (decide (l ≤ price), some price)
    else if cond = "ca" ∨ cond = "cb" then
      if optStrTruthy slTf = false then (false, none)
      else
        match getTfClose (some sr) slTf with
        | none => (false, none)
        | some price =>
          match level with
          | none => (false, none)
          | some l =>
            if cond = "ca" then (decide (l < price), some price)
            else (decide (price < l), some price)
    else (false, none)

/-- `check_tp(row, spot_under, spot_option)`: returns `(tp_hit, price_used)`.
TP has no condition field: it is always a touch threshold on the spot
last price of the `tp_type` instrument.  The level is
`row.get("tp_level") or row.get("tp")` (Python `or`). -/
def checkTp (row : ActiveTrade) (spotU spotO : Option SpotRow) :
    Bool × Option ℚ :=
  if row.tpEnabled = some false then (false, none) else
  let level := pyOrQ row.tpLevel row.tp
  match level with
  | none => (false, none)
  | some l =>
    let assetType := pyLower (orEmpty row.assetType)
    let cp := pyLower (orEmpty row.cp)
    let side := pyLower (orEmpty row.side)
    let tpType := pyLower (pyOrStrD row.tpType "equity")
    let profitWhenUp := profitWhenUpOf assetType cp side
    match chooseSpotRow tpType spotU spotO with
    | none => (false, none)
    | some sr =>
      match sr.lastPrice with
      | none => (false, none)
      | some price =>
        if profitWhenUp then (decide (l ≤ price), some price)
        else (decide (price ≤ l), some price)

/-! ## Market-hours gates -/

/-- `_is_regular_market_open_now` (trade_manager.py): Mon–Fri and
`time(9,31) <= t <= time(16,0)` in New York.  The weekday is `0` for
Monday through `6` for Sunday and the time of day is seconds since
midnight ET. -/
def isRegularMarketOpenNow (wd tsec : Nat) : Bool :=
  decide (wd < 5 ∧ 34260 ≤ tsec ∧ tsec ≤ 57600)

/-- `_is_market_open_now` (alpaca_client.py): Mon–Fri and
`time(9,30) <= t <= time(16,0)` in New York. -/
def isMarketOpenNowAlpaca (wd tsec : Nat) : Bool :=
  decide (wd < 5 ∧ 34200 ≤ tsec ∧ tsec ≤ 57600)

/-! ## Broker adapter (alpaca_client.py)

A Python return tuple is modelled as a `List Py` so that the arity of
what a function actually returns can differ from the arity its caller
unpacks, exactly as in the source. -/

/-- A Python scalar as it appears in the broker-call return tuples. -/
inductive Py where
  | pnone
  | num (q : ℚ)
  | int (n : Int)
  | str (s : String)
deriving DecidableEq, Repr

def Py.toOptQ : Py → Option ℚ
  | .num q => some q
  | _ => none

def Py.toOptStr : Py → Option String
  | .str s => some s
  | _ => none

def Py.toOptInt : Py → Option Int
  | .int n => some n
  | _ => none

def pyOfOptQ : Option ℚ → Py
  | some q => .num q
  | none => .pnone

def pyOfOptStr : Option String → Py
  | some s => .str s
  | none => .pnone

/-- The JSON body of a 2xx answer to `POST /v2/orders`. -/
structure OrderPayload where
  status : Option String
  filledAvgPrice : Option ℚ
  avgPrice : Option ℚ
  limitPrice : Option ℚ
  oid : Option String
deriving DecidableEq, Repr

/-- How one broker REST call went: a 2xx answer with a payload, an
HTTP error status, or a network/client exception with no status code. -/
inductive HttpOutcome where
  | ok (p : OrderPayload)
  | httpError (code : Int) (text : String)
  | netError (msg : String)
deriving DecidableEq, Repr

/-- `_extract_fill_price`:
`order.get("filled_avg_price") or order.get("avg_price") or
order.get("limit_price")` (Python `or`: `0.0` is falsy), `None` when
all are falsy-or-missing. -/
def extractFillPrice (p : OrderPayload) : Option ℚ :=
  pyOrQ (pyOrQ p.filledAvgPrice p.avgPrice) p.limitPrice

/-- `_normalize_occ`: strip a leading "O:". -/
def normalizeOcc (occ : String) : String :=
  if pyStartsWith occ "O:" then pyDrop occ 2 else occ

/-- `_map_option_side`: Tradier-style sides to Alpaca "buy"/"sell". -/
def mapOptionSide (side : String) : Option String :=
  let s := pyLower side
  if s = "buy" ∨ s = "buy_to_open" ∨ s = "buy_to_close" then some "buy"
  else if s = "sell" ∨ s = "sell_to_open" ∨ s = "sell_to_close" then some "sell"
  else none

/-- An observable side effect of processing one row, without the row id.
`post` is a broker `POST /v2/orders`; the others are shared-store
writes.  `insertOpenAttempt` is the call to
`supabase_client.insert_executed_trade_open` — see
`insertExecutedTradeOpenParams` below for why it can never succeed. -/
inductive EffBody where
  | updateActive (fields : List (String × String))
  | deleteActive
  | post (assetClass : String) (sym : String) (side : String)
  | insertOpenAttempt
  | closeLedger (price : ℚ) (reason : String)
  | markManaging
deriving DecidableEq, Repr

/-- An effect tagged with the id of the `active_trades` row being
processed when it happened. -/
structure Effect where
  rid : String
  body : EffBody
deriving DecidableEq, Repr

/-- `place_equity_market(symbol, qty, side)`.  Returns the broker POST
effects (empty when validation fails before the HTTP call) and the
Python return tuple.  Note the arity: the declared contract is the
4-tuple `(fill_price, order_id, error_code, error_message)`, and the
invalid-side and success paths do return 4 values, but the HTTP-error
and exception paths return 5 values
(`None, None, None, status_code, short_text`). -/
def placeEquityMarketE (symbol : String) (_qty : Int) (side : String)
    (out : HttpOutcome) : List EffBody × List Py :=
  let sideNorm := pyLower side
  if sideNorm ≠ "buy" ∧ sideNorm ≠ "sell" then
    ([], [.pnone, .pnone, .int 400, .str ("invalid side: " ++ side)])
  else
    match out with
    | .httpError code text =>
        ([.post "equity" symbol sideNorm],
         [.pnone, .pnone, .pnone, .int code, .str (pyTake text 250)])
    | .netError msg =>
        ([.post "equity" symbol sideNorm],
         [.pnone, .pnone, .pnone, .pnone, .str msg])
    | .ok p =>
        ([.post "equity" symbol sideNorm],
         [pyOfOptQ (extractFillPrice p), pyOfOptStr p.oid, .pnone, .pnone])

/-- `place_option_market(occ, qty, side)`.  Same return-tuple contract
and the same 5-value slips on the HTTP-error, exception and
market-closed paths. -/
def placeOptionMarketE (occ : String) (_qty : Int) (side : String)
    (wd tsec : Nat) (out : HttpOutcome) : List EffBody × List Py :=
  if isMarketOpenNowAlpaca wd tsec = false then
    ([], [.pnone, .pnone, .pnone, .pnone,
          .str "market_closed_for_option_market_order"])
  else
    let occClean := normalizeOcc occ
    if occClean = "" then
      ([], [.pnone, .pnone, .int 400, .str "missing OCC symbol"])
    else
      match mapOptionSide side with
      | none => ([], [.pnone, .pnone, .int 400, .str ("invalid side: " ++ side)])
      | some sideNorm =>
        match out with
        | .httpError code text =>
            ([.post "option" occClean sideNorm],
             [.pnone, .pnone, .pnone, .int code, .str (pyTake text 250)])
        | .netError msg =>
            ([.post "option" occClean sideNorm],
             [.pnone, .pnone, .pnone, .pnone, .str msg])
        | .ok p =>
            ([.post "option" occClean sideNorm],
             [pyOfOptQ (extractFillPrice p), pyOfOptStr p.oid, .pnone, .pnone])

/-- The message of Python's ValueError when a tuple of `got` values is
unpacked into `expected` names. -/
def unpackErr (expected got : Nat) : String :=
  if expected < got then
    "ValueError: too many values to unpack (expected "
      ++ toString expected ++ ")"
  else
    "ValueError: not enough values to unpack (expected "
      ++ toString expected ++ ", got " ++ toString got ++ ")"

/-- Python unpacking `a, b, c, d = xs`. -/
def unpack4 (xs : List Py) : Except String (Py × Py × Py × Py) :=
  match xs with
  | [a, b, c, d] => .ok (a, b, c, d)
  | _ => .error (unpackErr 4 xs.length)

/-- Python unpacking `a, b = xs` (the force-close path's
`fill_price, _ = alpaca_client.place_..._market(...)`). -/
def unpack2 (xs : List Py) : Except String (Py × Py) :=
  match xs with
  | [a, b] => .ok (a, b)
  | _ => .error (unpackErr 2 xs.length)

/-! ## The dispatcher (run_trade_manager's per-row loop body) -/

/-- `terminal_order_statuses` in run_trade_manager. -/
def terminalStatuses : List String := ["filled", "rejected", "canceled", "expired"]

/-- `is_fatal`: `error_code in {400,401,403,422} or error_code is None`. -/
def isFatalCode (c : Option Int) : Bool :=
  decide (c = some 400 ∨ c = some 401 ∨ c = some 403 ∨ c = some 422 ∨ c = none)

/-- `is_soft`: `error_code in {429} or (isinstance(error_code, int) and
error_code >= 500)`. -/
def isSoftCode (c : Option Int) : Bool :=
  match c with
  | some n => decide (n = 429 ∨ 500 ≤ n)
  | none => false

/-- Python `str(...)` of the optional error code, as interpolated by the
f-string building the freeze comment (`None` prints as "None"). -/
def showPyCode : Option Int → String
  | none => "None"
  | some n => toString n

/-- The update frozen rows receive:
`order_id="Error", order_status="error", manage="N", comment=...`. -/
def freezeFields (comment : String) : List (String × String) :=
  [("order_id", "Error"), ("order_status", "error"), ("manage", "N"),
   ("comment", comment)]

/-- The tail of the entry branch after `place_*_market` returned `raw`:
unpack into four names, store the order metadata when an order id came
back and the row had none, categorize errors otherwise, and on a
confirmed fill attempt the executed-trade open insert.  That insert
calls `insert_executed_trade_open` with keyword arguments that do not
match its signature (see `insertExecutedTradeOpenParams`), so it raises
TypeError, which the caller's `except` swallows before `continue`;
`mark_as_managing` is therefore unreachable. -/
def entryFinish (orderId : Option String) (pre ef : List EffBody)
    (raw : List Py) : List EffBody × Option String :=
  match unpack4 raw with
  | .error e => (pre ++ ef, some e)
  | .ok (p1, p2, p3, p4) =>
    let fill := p1.toOptQ
    let newOid := p2.toOptStr
    let errCode := p3.toOptInt
    let errMsg := p4.toOptStr
    if optStrTruthy newOid = true then
      let meta :=
        if optStrTruthy orderId = false then
          [EffBody.updateActive
            [("order_id", orEmpty newOid), ("order_status", "pending_new"),
             ("comment", "entry")]]
        else []
      match fill with
      | none => (pre ++ ef ++ meta, none)
      | some _ => (pre ++ ef ++ meta ++ [.insertOpenAttempt], none)
    else if isFatalCode errCode = true then
      (pre ++ ef ++ [.updateActive (freezeFields
        ("entry_error_" ++ showPyCode errCode ++ ": "
          ++ pyTake (orEmpty errMsg) 150))], none)
    else if isSoftCode errCode = true then
      (pre ++ ef, none)
    else
      (pre ++ ef ++ [.updateActive (freezeFields
        ("entry_error_unknown: " ++ pyTake (orEmpty errMsg) 150))], none)

/-- The tail of the SL/TP branches after `place_*_market` returned
`raw`.  `reason` is "sl" or "tp"; `unknownComment` is the bare
"sl_error_unknown"/"tp_error_unknown" comment of the fallback branch
(which, unlike the fatal branch, carries no message).  On a confirmed
fill the close is written to the executed ledger and the active row is
deleted — in this dispatcher that happens at submit time. -/
def exitFinish (orderId : Option String) (pre ef : List EffBody)
    (raw : List Py) (reason unknownComment : String) :
    List EffBody × Option String :=
  match unpack4 raw with
  | .error e => (pre ++ ef, some e)
  | .ok (p1, p2, p3, p4) =>
    let fill := p1.toOptQ
    let newOid := p2.toOptStr
    let errCode := p3.toOptInt
    let errMsg := p4.toOptStr
    let meta :=
      if optStrTruthy newOid = true ∧ optStrTruthy orderId = false then
        [EffBody.updateActive
          [("order_id", orEmpty newOid), ("order_status", "pending_new"),
           ("comment", reason)]]
      else []
    if optStrTruthy newOid = false then
      if isFatalCode errCode = true then
        (pre ++ ef ++ meta ++ [.updateActive (freezeFields
          (reason ++ "_error_" ++ showPyCode errCode ++ ": "
            ++ pyTake (orEmpty errMsg) 150))], none)
      else if isSoftCode errCode = true then
        (pre ++ ef ++ meta, none)
      else
        (pre ++ ef ++ meta ++ [.updateActive (freezeFields unknownComment)],
         none)
    else
      match fill with
      | none => (pre ++ ef ++ meta, none)
      | some fp => (pre ++ ef ++ meta ++ [.closeLedger fp reason,
                     .deleteActive], none)

/-- One pass of `run_trade_manager`'s `for row in rows:` body over a
single row, given the two spot rows, the New-York wall clock
(weekday, seconds since midnight) and the outcome of the broker call
the row would make.  Returns the effects in order plus the uncaught
exception, if any, that ends the pass (the loop body is not wrapped in
try/except, so such an exception kills the whole manager loop). -/
def dispatchRowB (row : ActiveTrade) (spotU spotO : Option SpotRow)
    (wd tsec : Nat) (out : HttpOutcome) :
    List EffBody × Option String :=
  let symbol := orEmpty row.symbol
  let occ := orEmpty row.occ
  let assetType := pyLower (orEmpty row.assetType)
  let qty := row.qty
  let orderId := row.orderId
  let orderStatus := pyLower (orEmpty row.orderStatus)
  -- AUTO-PROMOTE FILLED ENTRIES: status 'nt-waiting', a truthy
  -- order_id, and order_status 'filled' ⇒ status := 'nt-managing'.
  let promoted : Bool :=
    row.status = some "nt-waiting" ∧ optStrTruthy orderId = true
      ∧ orderStatus = "filled"
  let status : Option String :=
    if promoted then some "nt-managing" else row.status
  let pre : List EffBody :=
    if promoted then [.updateActive [("status", "nt-managing")]] else []
  -- MANAGE = 'C' (force close)
  if row.manage = some "C" then
    if status = some "nt-waiting" then
      (pre ++ [.deleteActive], none)
    else if status = some "nt-managing" ∨ status = some "pos-managing" then
      -- `fill_price, _ = alpaca_client.place_..._market(...)`: the
      -- callee returns 4 or 5 values, so this 2-name unpack always
      -- raises ValueError after the broker call returns.
      let call :=
        if assetType = "equity" then placeEquityMarketE symbol qty "sell" out
        else placeOptionMarketE occ qty "sell_to_close" wd tsec out
      match unpack2 call.2 with
      | .error e => (pre ++ call.1, some e)
      | .ok (p1, _) =>
        match p1.toOptQ with
        | none => (pre ++ call.1, none)
        | some fp => (pre ++ call.1 ++ [.closeLedger fp "force",
                       .deleteActive], none)
    else (pre, none)
  else if row.manage ≠ some "Y" then (pre, none)
  -- STATUS = 'nt-waiting' (new entry)
  else if status = some "nt-waiting" then
    if optStrTruthy orderId = true ∧ orderStatus ∉ terminalStatuses then
      (pre, none)
    else
      let ce := checkEntry row spotU spotO
      if ce.1 = false ∨ ce.2 = none then (pre, none)
      else if assetType = "equity" then
        let call := placeEquityMarketE symbol qty "buy" out
        entryFinish orderId pre call.1 call.2
      else if isRegularMarketOpenNow wd tsec = false then
        -- options only during regular hours; do not mark as error,
        -- just try again on the next loop
        (pre, none)
      else
        let call := placeOptionMarketE occ qty "buy_to_open" wd tsec out
        entryFinish orderId pre call.1 call.2
  -- STATUS = 'nt-managing' / 'pos-managing' (SL then TP)
  else if status = some "nt-managing" ∨ status = some "pos-managing" then
    let slRes := checkSl row spotU spotO
    if slRes.1 = true ∧ slRes.2 ≠ none then
      if optStrTruthy orderId = true ∧ orderStatus ∉ terminalStatuses then
        (pre, none)
      else if assetType = "equity" then
        let call := placeEquityMarketE symbol qty "sell" out
        exitFinish orderId pre call.1 call.2 "sl" "sl_error_unknown"
      else if isRegularMarketOpenNow wd tsec = false then
        (pre, none)
      else
        let call := placeOptionMarketE occ qty "sell_to_close" wd tsec out
        exitFinish orderId pre call.1 call.2 "sl" "sl_error_unknown"
    else
      let tpRes := checkTp row spotU spotO
      if tpRes.1 = true ∧ tpRes.2 ≠ none then
        if optStrTruthy orderId = true ∧ orderStatus ∉ terminalStatuses then
          (pre, none)
        else if assetType = "equity" then
          let call := placeEquityMarketE symbol qty "sell" out
          exitFinish orderId pre call.1 call.2 "tp" "tp_error_unknown"
        else if isRegularMarketOpenNow wd tsec = false then
          (pre, none)
        else
          let call := placeOptionMarketE occ qty "sell_to_close" wd tsec out
          exitFinish orderId pre call.1 call.2 "tp" "tp_error_unknown"
      else (pre, none)
  else (pre, none)

/-- The per-row pass with its effects tagged by the row id. -/
def dispatchRow (row : ActiveTrade) (spotU spotO : Option SpotRow)
    (wd tsec : Nat) (out : HttpOutcome) : List Effect × Option String :=
  let r := dispatchRowB row spotU spotO wd tsec out
  (r.1.map (fun b => ⟨row.id, b⟩), r.2)

/-- The per-row inputs a dispatcher tick sees for a given row id: the
two spot rows, the New-York clock and the broker answer. -/
structure RowEnv where
  spotU : Option SpotRow
  spotO : Option SpotRow
  wd : Nat
  tsec : Nat
  out : HttpOutcome

/-- `fetch_active_trades` (supabase_client.py):
`select * from active_trades where manage in ('Y','C')`. -/
def fetchActiveTrades (tbl : List ActiveTrade) : List ActiveTrade :=
  tbl.filter (fun r => decide (r.manage = some "Y" ∨ r.manage = some "C"))

/-- The effects of one full dispatcher tick over a table snapshot. -/
def runTick (tbl : List ActiveTrade) (env : String → RowEnv) : List Effect :=
  (fetchActiveTrades tbl).flatMap (fun r =>
    (dispatchRow r (env r.id).spotU (env r.id).spotO (env r.id).wd
      (env r.id).tsec (env r.id).out).1)

/-! ## The executed-ledger open insert interface

`supabase_client.insert_executed_trade_open` is declared as
`def insert_executed_trade_open(row, open_price)`, while
run_trade_manager calls it as
`insert_executed_trade_open(active_trade_row=row, asset_type=...,
qty=..., open_price=...)`.  Python binds a keyword call only when every
keyword names a parameter. -/

/-- The parameter names of `insert_executed_trade_open`. -/
def insertExecutedTradeOpenParams : List String := ["row", "open_price"]

/-- The keyword names run_trade_manager passes to it. -/
def tmInsertOpenCallKwargs : List String :=
  ["active_trade_row", "asset_type", "qty", "open_price"]

/-- Python keyword-argument binding (for a function without `**kwargs`):
succeeds only when every passed keyword is a declared parameter. -/
def pyKwargsAccepted (params kwargs : List String) : Bool :=
  kwargs.all (fun k => params.contains k)

/-! ## Concrete fixtures used in the claim instances -/

/-- A row with every nullable field absent (the common base of the
concrete rows below). -/
def blankRow : ActiveTrade :=
  { id := "t0", symbol := none, occ := none, assetType := none, cp := none,
    side := none, qty := 0, manage := none, status := none,
    entryCond := none, entryType := none, entryTf := none,
    entryLevel := none, entryTime := none, endTime := none,
    slEnabled := none, slCond := none, slType := none, slTf := none,
    slLevel := none, sl := none, tpEnabled := none, tpLevel := none,
    tp := none, tpType := none, orderId := none, orderStatus := none,
    comment := none, tradeType := none }

/-- An `nt-waiting` equity row with `entry_cond=now` (the spec's
scenario 1 row). -/
def entryRowSPY : ActiveTrade :=
  { blankRow with
    id := "e1", symbol := some "SPY",
    assetType := some "equity", side := some "long", qty := 1,
    manage := some "Y", status := some "nt-waiting",
    entryCond := some "now", entryType := some "equity" }

/-- Spot SPY with last 510. -/
def spotSPY510 : SpotRow := { lastPrice := some 510, tfCloses := [] }

/-- Spot SPY with last 499 (below the 500 stop). -/
def spotSPY499 : SpotRow := { lastPrice := some 499, tfCloses := [] }

/-- An `nt-managing` equity row with an `at` stop at 500. -/
def slRowSPY : ActiveTrade :=
  { blankRow with
    id := "s1", symbol := some "SPY",
    assetType := some "equity", side := some "long", qty := 1,
    manage := some "Y", status := some "nt-managing",
    slEnabled := some true, slCond := some "at", slLevel := some 500,
    slType := some "equity" }

/-- An `nt-waiting` option row with `entry_cond=now` on the option's
own spot (the spec's scenario 2 row). -/
def entryRowOpt : ActiveTrade :=
  { blankRow with
    id := "o1", symbol := some "AMD",
    occ := some "AMD260102C00180000", assetType := some "option",
    cp := some "c", qty := 2, manage := some "Y",
    status := some "nt-waiting", entryCond := some "now",
    entryType := some "option" }

/-- Spot for the AMD call with last 1.80. -/
def spotAMDOpt : SpotRow := { lastPrice := some 2, tfCloses := [] }

/-- A 2xx order payload: order id present, filled at the given price. -/
def okPayload (oid : String) (fp : ℚ) : OrderPayload :=
  { status := some "filled", filledAvgPrice := some fp, avgPrice := none,
    limitPrice := none, oid := some oid }

/-- `entryRowSPY` already promoted on the broker side: a WebSocket
update has set `order_status="filled"` while the status is still
`nt-waiting`. -/
def promoteRow : ActiveTrade :=
  { entryRowSPY with
    id := "p1", orderId := some "brk-1", orderStatus := some "filled" }

/-- `entryRowSPY` with an `end_time` long in the past. -/
def expiredEntryRow : ActiveTrade :=
  { entryRowSPY with
    id := "x1", endTime := some 500 }

/-- `slRowSPY` with an `end_time` long in the past and a stop that is
not currently hit (level 400 with spot 499). -/
def expiredMngRow : ActiveTrade :=
  { slRowSPY with
    id := "x2", endTime := some 500, slLevel := some 400 }

/-- A row with `entry_cond=now` and nothing else. -/
def nowRowNoSpot : ActiveTrade :=
  { blankRow with
    entryCond := some "now", entryType := some "equity" }

/-- A spot row whose `last_price` is null. -/
def noPriceSpot : SpotRow := { lastPrice := none, tfCloses := [] }

/-- A spot row with only a last price. -/
def optSpot (last : ℚ) : SpotRow := { lastPrice := some last, tfCloses := [] }

/-- A spot row with only a "5m" candle bucket. -/
def tfSpot (cl : Option ℚ) : SpotRow :=
  { lastPrice := none, tfCloses := [("5m", cl)] }

/-- A long option row with an `at` stop-loss at level `L` evaluated on
the option's own spot. -/
def slAtOptionRow (cp : String) (L : ℚ) : ActiveTrade :=
  { blankRow with
    assetType := some "option", cp := some cp, slCond := some "at",
    slLevel := some L, slType := some "option" }

/-- An option row with a take-profit at level `L` evaluated on the
option's own spot. -/
def tpOptionRow (cp : String) (L : ℚ) : ActiveTrade :=
  { blankRow with
    assetType := some "option", cp := some cp, tpLevel := some L,
    tpType := some "option" }

/-- An option row with a candle-close stop (`sl_cond` = "ca"/"cb") at
level `L` on timeframe `tf`; `cp` and `side` are left arbitrary to
state side-independence. -/
def slTfOptionRow (c : String) (cp side : Option String) (L : ℚ)
    (tf : Option String) : ActiveTrade :=
  { blankRow with
    assetType := some "option", cp := cp, side := side,
    slCond := some c, slLevel := some L, slType := some "option",
    slTf := tf }

/-- A frozen row (`manage=N`, the sentinel "Error" order id). -/
def frozenRow : ActiveTrade :=
  { blankRow with
    id := "t9", manage := some "N", orderId := some "Error",
    orderStatus := some "error" }

/-- A table snapshot holding one frozen and one managed row. -/
def tickTbl : List ActiveTrade := [frozenRow, entryRowSPY]

/-- A per-row environment where every row sees SPY at 510 and a broker
that fills. -/
def tickEnv : String → RowEnv :=
  fun _ => ⟨some spotSPY510, none, 0, 40000, .ok (okPayload "oid-1" 510)⟩

/-- `entryRowSPY` already carrying a working (non-terminal) order. -/
def workingOrderRow : ActiveTrade :=
  { entryRowSPY with
    id := "w1", orderId := some "brk-9", orderStatus := some "pending_new" }

/-- Whether an effect is the pre-lock write the specification
describes: a conditional update that sets `order_id="sent"`. -/
def isPrelockWrite : EffBody → Bool
  | .updateActive fields => fields.contains ("order_id", "sent")
  | _ => false

instance {ε α : Type} [DecidableEq ε] [DecidableEq α] :
    DecidableEq (Except ε α) := fun a b =>
  match a, b with
  | .error e₁, .error e₂ =>
      if h : e₁ = e₂ then .isTrue (by rw [h])
      else .isFalse (by intro hc; cases hc; exact h rfl)
  | .error _, .ok _ => .isFalse (by intro hc; cases hc)
  | .ok _, .error _ => .isFalse (by intro hc; cases hc)
  | .ok a₁, .ok a₂ =>
      if h : a₁ = a₂ then .isTrue (by rw [h])
      else .isFalse (by intro hc; cases hc; exact h rfl)

/-! ## Claim theorems -/

/-- Claim C1, counterexample.  The claim says every broker submission
is preceded by a pre-lock conditional update writing `order_id="sent"`,
`order_status="working"`, `comment="..._prelock"`.  On a concrete
`nt-waiting` row whose `now` entry fires, the very first effect of the
dispatch pass is already the broker POST, and no effect of the pass
writes `order_id="sent"`: the dispatch path performs no pre-lock at
all. -/
theorem claim_C1_counterexample :
    (dispatchRowB entryRowSPY (some spotSPY510) none 0 40000
      (.ok (okPayload "oid-1" 510))).1.head? =
        some (.post "equity" "SPY" "buy")
    ∧ (dispatchRowB entryRowSPY (some spotSPY510) none 0 40000
        (.ok (okPayload "oid-1" 510))).1.all
          (fun b => !(isPrelockWrite b)) = true := by decide

/-- Claim C1 (corrected).  There is no pre-lock; instead, duplicate
submission is prevented by a read-time guard: a `manage=Y` row that
already carries a truthy `order_id` whose `order_status` is not
terminal is skipped entirely — the dispatch pass produces no broker
POST and no store write for it, whatever its status, the spot data,
the clock or the broker outcome. -/
theorem claim_C1_working_order_guard (row : ActiveTrade)
    (sU sO : Option SpotRow) (wd tsec : Nat) (out : HttpOutcome)
    (h1 : row.manage = some "Y")
    (h2 : optStrTruthy row.orderId = true)
    (h3 : pyLower (orEmpty row.orderStatus) ∉ terminalStatuses) :
    dispatchRowB row sU sO wd tsec out = ([], none) := by
  have hnf : pyLower (orEmpty row.orderStatus) ≠ "filled" := by
    intro h
    exact h3 (by rw [h]; decide)
  unfold dispatchRowB
  simp only [h1, h2, hnf, decide_eq_true_eq, false_and, and_false,
    Bool.false_eq_true, if_false, reduceCtorEq, Option.some.injEq,
    String.reduceEq, ite_false, not_true_eq_false, if_neg,
    not_false_eq_true, ne_eq, not_true, and_true, true_and]
  simp [h3]

/-- Witness for `claim_C1_working_order_guard`: a concrete row with a
pending entry order is left completely alone. -/
theorem claim_C1_witness :
    dispatchRowB workingOrderRow (some spotSPY510) none 0 40000
      (.ok (okPayload "oid-1" 510)) = ([], none) :=
  claim_C1_working_order_guard workingOrderRow (some spotSPY510) none 0
    40000 (.ok (okPayload "oid-1" 510)) (by decide) (by decide) (by decide)

/-- Claim C2 (code bug).  First: run_trade_manager calls the ledger
open insert with keyword arguments
`active_trade_row, asset_type, qty, open_price`, but
`insert_executed_trade_open` is declared with parameters
`row, open_price`, so the call raises TypeError on every confirmed
entry fill and is swallowed by the surrounding `except`, leaving no
open record.  Second: a row whose order the WebSocket already marked
"filled" is auto-promoted to `nt-managing` by a bare status update,
with no ledger-open insert at all. -/
theorem claim_C2_code_bug :
    pyKwargsAccepted insertExecutedTradeOpenParams tmInsertOpenCallKwargs
      = false
    ∧ dispatchRowB promoteRow none none 0 40000 (.ok (okPayload "x" 1)) =
        ([.updateActive [("status", "nt-managing")]], none) := by decide

/-- Claim C3 (code bug).  On a broker HTTP error (e.g. 422),
`place_equity_market` returns the 5-tuple
`(None, None, None, status_code, short_text)` although its declared
contract (and every caller) expects 4 values; the dispatcher's 4-name
unpack therefore raises ValueError, the pass dies, and the row is
never frozen to `order_id="Error"`, `order_status="error"`,
`manage="N"`. -/
theorem claim_C3_code_bug :
    (placeEquityMarketE "SPY" 1 "buy"
      (.httpError 422 "insufficient buying power")).2.length = 5
    ∧ unpack4 (placeEquityMarketE "SPY" 1 "buy"
        (.httpError 422 "insufficient buying power")).2 =
        .error "ValueError: too many values to unpack (expected 4)"
    ∧ dispatchRowB entryRowSPY (some spotSPY510) none 0 40000
        (.httpError 422 "insufficient buying power") =
        ([.post "equity" "SPY" "buy"],
         some "ValueError: too many values to unpack (expected 4)") := by
  decide

/-- Claim C5, counterexample.  The claim says nothing is written to the
executed-trade ledger at submit time.  On a concrete `nt-managing` row
whose stop fires, the same dispatch pass that submits the sell also
writes the ledger close and deletes the active row (there is no
reconciler in this implementation). -/
theorem claim_C5_counterexample :
    dispatchRowB slRowSPY (some spotSPY499) none 0 40000
      (.ok (okPayload "oid-2" 499)) =
      ([.post "equity" "SPY" "sell",
        .updateActive [("order_id", "oid-2"),
          ("order_status", "pending_new"), ("comment", "sl")],
        .closeLedger 499 "sl", .deleteActive], none)
    ∧ EffBody.closeLedger 499 "sl" ∈
        (dispatchRowB slRowSPY (some spotSPY499) none 0 40000
          (.ok (okPayload "oid-2" 499))).1 := by decide

/-- Claim C6, counterexample.  The claim says an `nt-waiting` row past
`end_time` is deleted and a managing row past `end_time` gets
`manage=C, comment="time_exit"`.  The dispatcher reads neither
`entry_time` nor `end_time`: a long-expired waiting row is entered
(POST, metadata update, open-insert attempt — no delete), and a
long-expired managing row with no SL/TP trigger is left untouched. -/
theorem claim_C6_counterexample :
    dispatchRowB expiredEntryRow (some spotSPY510) none 0 40000
      (.ok (okPayload "oid-1" 510)) =
      ([.post "equity" "SPY" "buy",
        .updateActive [("order_id", "oid-1"),
          ("order_status", "pending_new"), ("comment", "entry")],
        .insertOpenAttempt], none)
    ∧ dispatchRowB expiredMngRow (some spotSPY499) none 0 40000
        (.ok (okPayload "oid-2" 499)) = ([], none) := by decide

/-- Claim C6 (corrected): the dispatcher enforces no time windows at
all — its behaviour is invariant under arbitrary changes of
`entry_time` and `end_time`. -/
theorem claim_C6_no_time_windows (row : ActiveTrade)
    (sU sO : Option SpotRow) (wd tsec : Nat) (out : HttpOutcome)
    (et en : Option Int) :
    dispatchRowB { row with entryTime := et, endTime := en } sU sO wd
      tsec out = dispatchRowB row sU sO wd tsec out := by
  cases row
  rfl

/-- Claim C7, counterexample.  The claim says `check_entry` with
`entry_cond="now"` returns trigger=true unconditionally, possibly with
`price_used=None`.  With the selected spot row missing, or present but
with a null last price, it returns `(false, None)` instead. -/
theorem claim_C7_counterexample :
    checkEntry nowRowNoSpot none none = (false, none)
    ∧ checkEntry nowRowNoSpot (some noPriceSpot) none = (false, none) := by
  decide

/-- Claim C8, counterexample.  The claim quantifies over every level L;
at L = 0 a long-call `at` stop with the observed last price 0 should
fire (last ≤ L), but `check_sl` reads the level as
`row.get("sl_level") or row.get("sl")` — Python `or` treats the float
`0.0` as falsy — so the level lookup yields `None` and the stop is
silently disabled. -/
theorem claim_C8_counterexample :
    ((0 : ℚ) ≤ 0)
    ∧ checkSl (slAtOptionRow "c" 0) none (some (optSpot 0)) =
        (false, none) := by decide

/-- Claim C4, counterexample.  The claim says an option send is
rejected exactly when New-York time is outside Mon–Fri 09:46–15:59.
On Monday at 09:45:00 ET (09:45 is outside 09:46–15:59, so the claim
demands rejection and no POST), the gate `_is_regular_market_open_now`
— whose window is 09:31–16:00 — lets the send through and the broker
POST happens. -/
theorem claim_C4_counterexample :
    dispatchRowB entryRowOpt (some spotSPY510) (some spotAMDOpt) 0 35100
      (.ok (okPayload "oid-3" 2)) =
      ([.post "option" "AMD260102C00180000" "buy",
        .updateActive [("order_id", "oid-3"),
          ("order_status", "pending_new"), ("comment", "entry")],
        .insertOpenAttempt], none) := by decide

/-- Claim C4 (corrected).  The option gate window is Mon–Fri
09:31–16:00 ET inclusive (not 09:46–15:59): (1) whenever the gate is
closed, an option-entry pass neither POSTs nor mutates the row
(whatever the row, spot data, or broker outcome), so the next tick
retries it; (2) at Monday 09:30:30 ET the send is blocked; (3) at
Monday 09:46:00 ET it proceeds. -/
theorem claim_C4_option_rth_gate :
    (∀ (row : ActiveTrade) (sU sO : Option SpotRow) (wd tsec : Nat)
      (out : HttpOutcome),
      pyLower (orEmpty row.assetType) ≠ "equity" →
      row.manage = some "Y" →
      row.status = some "nt-waiting" →
      pyLower (orEmpty row.orderStatus) ≠ "filled" →
      isRegularMarketOpenNow wd tsec = false →
      dispatchRowB row sU sO wd tsec out = ([], none))
    ∧ dispatchRowB entryRowOpt (some spotSPY510) (some spotAMDOpt) 0 34230
        (.ok (okPayload "oid-3" 2)) = ([], none)
    ∧ dispatchRowB entryRowOpt (some spotSPY510) (some spotAMDOpt) 0 35160
        (.ok (okPayload "oid-3" 2)) =
        ([.post "option" "AMD260102C00180000" "buy",
          .updateActive [("order_id", "oid-3"),
            ("order_status", "pending_new"), ("comment", "entry")],
          .insertOpenAttempt], none) := by
  refine ⟨?_, by decide, by decide⟩
  intro row sU sO wd tsec out h1 h2 h3 h4 h5
  unfold dispatchRowB
  simp only [h1, h2, h3, h4, h5, decide_eq_true_eq, false_and, and_false,
    Bool.false_eq_true, if_false, reduceCtorEq, Option.some.injEq,
    String.reduceEq, ite_false, not_true_eq_false, if_neg,
    not_false_eq_true, ne_eq, not_true, and_true, true_and]
  simp

/-- Witness for `claim_C4_option_rth_gate`: on a Saturday the concrete
option row is left alone. -/
theorem claim_C4_witness :
    dispatchRowB entryRowOpt (some spotSPY510) (some spotAMDOpt) 6 40000
      (.ok (okPayload "oid-3" 2)) = ([], none) :=
  claim_C4_option_rth_gate.1 entryRowOpt (some spotSPY510)
    (some spotAMDOpt) 6 40000 (.ok (okPayload "oid-3" 2))
    (by decide) (by decide) (by decide) (by decide) (by decide)

/-- Claim C5 (corrected).  On a successful submission the dispatcher
does update the row to the real order id with
`order_status="pending_new"` and `comment=reason` — but when the
submit response also carries a fill price it immediately writes the
executed-ledger record in the same pass (here: the close, followed by
the row deletion); nothing is deferred to a reconciler.  Stated for
every non-empty order id and non-zero fill price the broker returns. -/
theorem claim_C5_submit_time_ledger (oid : String) (fp : ℚ)
    (hoid : oid ≠ "") (hfp : fp ≠ 0) :
    dispatchRowB slRowSPY (some spotSPY499) none 0 40000
      (.ok (okPayload oid fp)) =
      ([.post "equity" "SPY" "sell",
        .updateActive [("order_id", oid), ("order_status", "pending_new"),
          ("comment", "sl")],
        .closeLedger fp "sl", .deleteActive], none) := by
  have hx : extractFillPrice (okPayload oid fp) = some fp := by
    simp [extractFillPrice, okPayload, pyOrQ, qTruthy, hfp]
  have hpo : (okPayload oid fp).oid = some oid := rfl
  have ht : optStrTruthy (some oid) = true := by simp [optStrTruthy, hoid]
  have hsl : checkSl slRowSPY (some spotSPY499) none = (true, some 499) := by
    decide
  unfold dispatchRowB
  rw [hsl]
  simp [slRowSPY, blankRow, placeEquityMarketE, exitFinish, unpack4,
    hx, hpo, ht, pyLower, orEmpty, optStrTruthy, terminalStatuses,
    pyOfOptQ, pyOfOptStr, Py.toOptQ, Py.toOptStr, Py.toOptInt, hoid]

/-- Witness for `claim_C5_submit_time_ledger` at a concrete id and
price. -/
theorem claim_C5_witness :
    dispatchRowB slRowSPY (some spotSPY499) none 0 40000
      (.ok (okPayload "oid-2" 499)) =
      ([.post "equity" "SPY" "sell",
        .updateActive [("order_id", "oid-2"),
          ("order_status", "pending_new"), ("comment", "sl")],
        .closeLedger 499 "sl", .deleteActive], none) :=
  claim_C5_submit_time_ledger "oid-2" 499 (by decide) (by decide)

/-- Claim C7 (corrected).  With `entry_cond="now"`, `check_entry`
returns trigger=true exactly when the selected spot row is present and
its last price is non-null, and then `price_used` is that price; it
returns `(false, None)` otherwise.  Moreover no input whatsoever makes
`check_entry` return `(true, None)`, so there is no
"true with price_used=None, fall back to the broker fill" path. -/
theorem claim_C7_now_entry :
    (∀ (row : ActiveTrade) (sU sO : Option SpotRow),
      pyLower (orEmpty row.entryCond) = "now" →
      checkEntry row sU sO =
        (match getSpotPrice (chooseSpotRow (pyLower (pyOrStrD
            row.entryType "equity")) sU sO) with
         | some p => (true, some p)
         | none => (false, none)))
    ∧ (∀ (row : ActiveTrade) (sU sO : Option SpotRow),
        checkEntry row sU sO ≠ (true, none)) := by
  constructor
  · intro row sU sO h
    unfold checkEntry
    rcases hc : chooseSpotRow (pyLower (pyOrStrD row.entryType "equity"))
        sU sO with _ | sr
    · simp [h, hc, getSpotPrice]
    · rcases hp : sr.lastPrice with _ | p
      · simp [h, hc, hp, getSpotPrice]
      · simp [h, hc, hp, getSpotPrice]
  · intro row sU sO h
    unfold checkEntry at h
    simp only [] at h
    repeat' split at h
    all_goals simp_all

/-- Witness for `claim_C7_now_entry`: the concrete `now` row with SPY
at 510 triggers with that price. -/
theorem claim_C7_witness :
    checkEntry entryRowSPY (some spotSPY510) none = (true, some 510) :=
  (claim_C7_now_entry.1 entryRowSPY (some spotSPY510) none
    (by decide)).trans (by decide)

/-- Claim C8 (corrected).  The directional properties hold for every
nonzero level L (level 0 is treated as "unset" by the falsy-level
lookup, see the counterexample): on a long call the `at` stop fires
iff last ≤ L and the take-profit iff last ≥ L; on a put the
take-profit fires iff last ≤ L and the stop iff last ≥ L; `ca` fires
iff the timeframe close > L and `cb` iff close < L for arbitrary
`cp`/`side`; and the trigger is false when the timeframe label is
unset, the close is null, or the configured timeframe has no bucket. -/
theorem claim_C8_directional (L last cl : ℚ) (cp side : Option String)
    (hL : L ≠ 0) :
    checkSl (slAtOptionRow "c" L) none (some (optSpot last)) =
        (decide (last ≤ L), some last)
    ∧ checkTp (tpOptionRow "c" L) none (some (optSpot last)) =
        (decide (L ≤ last), some last)
    ∧ checkTp (tpOptionRow "p" L) none (some (optSpot last)) =
        (decide (last ≤ L), some last)
    ∧ checkSl (slAtOptionRow "p" L) none (some (optSpot last)) =
        (decide (L ≤ last), some last)
    ∧ checkSl (slTfOptionRow "ca" cp side L (some "5m")) none
        (some (tfSpot (some cl))) = (decide (L < cl), some cl)
    ∧ checkSl (slTfOptionRow "cb" cp side L (some "5m")) none
        (some (tfSpot (some cl))) = (decide (cl < L), some cl)
    ∧ checkSl (slTfOptionRow "ca" cp side L none) none
        (some (tfSpot (some cl))) = (false, none)
    ∧ checkSl (slTfOptionRow "ca" cp side L (some "5m")) none
        (some (tfSpot none)) = (false, none)
    ∧ checkSl (slTfOptionRow "ca" cp side L (some "15m")) none
        (some (tfSpot (some cl))) = (false, none) := by
  refine ⟨?_, ?_, ?_, ?_, ?_, ?_, ?_, ?_, ?_⟩ <;>
    simp [checkSl, checkTp, slAtOptionRow, tpOptionRow, slTfOptionRow,
      blankRow, optSpot, tfSpot, pyOrQ, qTruthy, hL, pyLower, orEmpty,
      pyOrStrD, chooseSpotRow, profitWhenUpOf, optStrTruthy, getTfClose,
      List.lookup]

/-- Witness for `claim_C8_directional`: the long-call stop at level 500
fires on last 499. -/
theorem claim_C8_witness :
    checkSl (slAtOptionRow "c" 500) none (some (optSpot 499)) =
      (true, some 499) :=
  ((claim_C8_directional 500 499 0 none none (by decide)).1).trans
    (by decide)

/-- Claim C9 (confirmed).  The dispatcher fetches only rows with
`manage ∈ {Y, C}`; a row that is frozen (`manage=N`, and whose id no
fetched row shares) is never the target of any effect of a tick — no
broker call, no store write. -/
theorem claim_C9_frozen_rows_untouched (tbl : List ActiveTrade)
    (env : String → RowEnv) (id0 : String)
    (h : ∀ r ∈ tbl, r.id = id0 → r.manage = some "N") :
    (runTick tbl env).all (fun e => e.rid != id0) = true := by
  rw [List.all_eq_true]
  intro e he
  simp only [runTick, fetchActiveTrades, List.mem_flatMap,
    List.mem_filter, decide_eq_true_eq] at he
  obtain ⟨r, ⟨hrt, hrm⟩, hre⟩ := he
  simp only [dispatchRow, List.mem_map] at hre
  obtain ⟨b, hb, rfl⟩ := hre
  simp only [bne_iff_ne, ne_eq, decide_eq_true_eq]
  intro heq
  have hn := h r hrt heq
  rw [hn] at hrm
  simp at hrm

/-- Witness for `claim_C9_frozen_rows_untouched`: a tick over a table
with one frozen and one managed row touches only the managed row. -/
theorem claim_C9_witness :
    (runTick tickTbl tickEnv).all (fun e => e.rid != "t9") = true :=
  claim_C9_frozen_rows_untouched tickTbl tickEnv "t9" (by decide)

/-- Claim C10 (confirmed).  An absent/None `sl_enabled` behaves exactly
like an explicit true — only the literal boolean false disables the
stop check, which then returns `(false, None)`; and likewise for
`tp_enabled` in `check_tp`. -/
theorem claim_C10_enabled_gate (row : ActiveTrade)
    (sU sO : Option SpotRow) :
    checkSl { row with slEnabled := none } sU sO =
        checkSl { row with slEnabled := some true } sU sO
      ∧ checkSl { row with slEnabled := some false } sU sO = (false, none)
      ∧ checkTp { row with tpEnabled := none } sU sO =
          checkTp { row with tpEnabled := some true } sU sO
      ∧ checkTp { row with tpEnabled := some false } sU sO =
          (false, none) := by
  cases row
  exact ⟨rfl, rfl, rfl, rfl⟩

end TradeManager
